import Mathlib

/-!
Shallow embedding of the request-scoped file lifecycle of the LivePortrait
image-to-video HTTP service, and proofs of the specification claims about it.

Two handler variants exist in the repository:
  * `Image2video.generate_video`  — src/image2video_server.py, which runs an
    external inference script and derives the output path by convention;
  * `ScriptsFastapi.generate_video` — src/scripts/fastapi_server.py, which runs
    an ffmpeg command line built from duration/fps and chooses the output path
    itself.

Each handler is embedded as a pure function from an environment (the
per-request nondeterminism: generated identifiers, uploaded filename,
whether the payload write succeeds, how the external process behaves,
whether it produced the output file) to a `Run`: the ordered trace of
file-system and process events, the HTTP response value the handler returns,
and the final contents of the relevant file-system paths.
-/

namespace LivePortrait

/-- Python `os.path.basename`: the part of the string after the last slash. -/
def pyBasename (s : String) : String :=
  String.mk ((s.data.reverse.takeWhile (fun c => c ≠ '/')).reverse)

/-- Python `s.split('.')[0]`: the part of the string before the first dot. -/
def splitHeadDot (s : String) : String :=
  String.mk (s.data.takeWhile (fun c => c ≠ '.'))

/-- Whether a string starts with a slash (kernel-reducible helper). -/
def strStartsSlash (s : String) : Bool :=
  match s.data with
  | [] => false
  | c :: _ => c == '/'

/-- Whether a string ends with a slash (kernel-reducible helper). -/
def strEndsSlash (s : String) : Bool :=
  match s.data.getLast? with
  | some c => c == '/'
  | none => false

/-- Python `os.path.join(a, b)` for POSIX paths as used by the servers. -/
def pyJoin (a b : String) : String :=
  if strStartsSlash b then b
  else if a = "" then b
  else if strEndsSlash a then a ++ b
  else a ++ "/" ++ b

/-- A single-quote character, written via an escape. -/
def sq : String := "\x27"

/-- The message of Python `subprocess.CalledProcessError` as produced by
`str(e)` when `subprocess.run(cmd, shell=True, check=True)` sees a non-zero
exit status. -/
def calledProcessErrorMsg (cmd : String) (code : Nat) : String :=
  "Command " ++ sq ++ cmd ++ sq ++ " returned non-zero exit status "
    ++ toString code ++ "."

/-- Behaviour of the external process invocation: it either runs to an exit
status, or the invocation itself raises an exception (e.g. the shell cannot
be spawned). -/
inductive ProcBehavior
  | exits (code : Nat)
  | raises
deriving DecidableEq

/-- The per-request environment: everything the handler's behaviour depends
on that comes from outside the handler code. `uuid` and `uuid2` are the
values of the two `uuid.uuid4()` calls; `filename` is the client-supplied
upload filename; `duration` and `fps` the two integer query parameters;
`writeOk` is whether opening and writing the input file succeeds
(`writeFailLeavesFile` says whether a failed write still left a file on
disk, as happens when `open` succeeds and the write raises); `proc` is the
external process behaviour and `outputProduced` whether the external process
left a file at the expected output path. -/
structure Env where
  uuid : String
  uuid2 : String
  filename : String
  duration : Int
  fps : Int
  writeOk : Bool
  writeFailLeavesFile : Bool
  writeErrMsg : String
  raiseErrMsg : String
  proc : ProcBehavior
  outputProduced : Bool

/-- Observable events of one request, in order: writing the uploaded payload
to the input path, choosing an output path before invocation (shell-encoder
variant), invoking the external process (the flag records `shell=True`),
deriving the output path after invocation (inference variant), and deleting
a file in the cleanup block. -/
inductive Event
  | writeInput (path : String)
  | chooseOutput (path : String)
  | invoke (cmd : String) (shell : Bool)
  | deriveOutput (path : String)
  | deleteInput (path : String)
deriving DecidableEq

/-- The value a handler returns: a `FileResponse(path, media_type, filename)`
or the dict `\x7b"error": msg\x7d` that FastAPI serialises as JSON. -/
inductive Response
  | fileResponse (path mediaType filename : String)
  | errorJson (msg : String)
deriving DecidableEq

/-- The HTTP status FastAPI attaches to each handler return value: a
`FileResponse` defaults to 200 and a plain dict is serialised as a 200 JSON
response; neither handler ever sets a status code. -/
def statusOf : Response → Nat
  | Response.fileResponse _ _ _ => 200
  | Response.errorJson _ => 200

/-- The result of one request: the event trace, the response value the
handler returns, and the files present afterwards among those the request
touches. -/
structure Run where
  trace : List Event
  response : Response
  fsFinal : List String
deriving DecidableEq

/-- Add a path to the file-system model (no duplicates). -/
def addFile (fs : List String) (p : String) : List String :=
  if p ∈ fs then fs else fs ++ [p]

/-- Remove a path from the file-system model (`os.remove`). -/
def removeFile (fs : List String) (p : String) : List String :=
  fs.filter (fun q => q ≠ p)

/-- Count of input-file deletions in a trace. -/
def deleteCountL : List Event → Nat
  | [] => 0
  | Event.deleteInput _ :: tl => deleteCountL tl + 1
  | _ :: tl => deleteCountL tl

/-- Whether the trace contains a process invocation. -/
def invokeHappenedL : List Event → Bool
  | [] => false
  | Event.invoke _ _ :: _ => true
  | _ :: tl => invokeHappenedL tl

/-- Count of process invocations in a trace. -/
def invokeCountL : List Event → Nat
  | [] => 0
  | Event.invoke _ _ :: tl => invokeCountL tl + 1
  | _ :: tl => invokeCountL tl

/-- No deletion occurs before the first process invocation: the input file,
once written, survives at least until the invocation. -/
def noDeleteBeforeInvokeL : List Event → Bool
  | [] => true
  | Event.invoke _ _ :: _ => true
  | Event.deleteInput _ :: _ => false
  | _ :: tl => noDeleteBeforeInvokeL tl

/-- The last event of the trace is the input-file deletion. -/
def deleteIsLastL : List Event → Bool
  | [] => false
  | [Event.deleteInput _] => true
  | [_] => false
  | _ :: tl => deleteIsLastL tl

/-- No output path is chosen or derived before the first invocation. -/
def noOutputChoiceBeforeInvokeL : List Event → Bool
  | [] => true
  | Event.invoke _ _ :: _ => true
  | Event.chooseOutput _ :: _ => false
  | Event.deriveOutput _ :: _ => false
  | _ :: tl => noOutputChoiceBeforeInvokeL tl

/-- An output path is chosen before any invocation. -/
def chosenBeforeInvokeL : List Event → Bool
  | [] => false
  | Event.invoke _ _ :: _ => false
  | Event.chooseOutput _ :: _ => true
  | _ :: tl => chosenBeforeInvokeL tl

/-- Every deletion in the trace targets exactly the given path. -/
def deletesOnlyL (p : String) : List Event → Bool
  | [] => true
  | Event.deleteInput q :: tl => q == p && deletesOnlyL p tl
  | _ :: tl => deletesOnlyL p tl

/-- The fixed working directory both server files create at startup. -/
def TEMP_DIR : String := "temp_files"

namespace Image2video

/-- The fixed driving-asset path of src/image2video_server.py. -/
def driving_video_path : String := "assets/examples/driving/video.pkl"

/-- The f-string `image_prefix` of line 52: `uuid4()_filename`. -/
def imageBaseName (e : Env) : String := e.uuid ++ "_" ++ e.filename

/-- Line 53: the input path under the working directory. -/
def input_image_path (e : Env) : String := pyJoin TEMP_DIR (imageBaseName e)

/-- Line 59, `name_prefix`: basename of `image_prefix`, cut at the first
dot. -/
def nameStem (e : Env) : String := splitHeadDot (pyBasename (imageBaseName e))

/-- Line 71: the inference command line. -/
def inference_cmd (inputPath : String) : String :=
  "python inference.py -s " ++ inputPath ++ " -d " ++ driving_video_path

/-- Line 75: the output path derived by convention after the invocation. -/
def output_video_path (e : Env) : String :=
  "animations/" ++ nameStem e ++ "--video.mp4"

/-- The request handler of src/image2video_server.py, embedded step by step:
compute the input path and name stem, try to write the payload, run the
inference command through the shell with `check=True`, derive the output
path and return a `FileResponse` on success; catch any exception into an
error dict; in the `finally` block delete the input file if it exists. -/
def generate_video (e : Env) : Run :=
  let inputPath := input_image_path e
  if e.writeOk then
    let cmd := inference_cmd inputPath
    let fs1 : List String := [inputPath]
    let fs2 := if e.outputProduced then addFile fs1 (output_video_path e) else fs1
    match e.proc with
    | ProcBehavior.exits code =>
      if code = 0 then
        { trace := [Event.writeInput inputPath, Event.invoke cmd true,
                    Event.deriveOutput (output_video_path e),
                    Event.deleteInput inputPath]
          response := Response.fileResponse (output_video_path e)
              "video/mp4" "generated_video.mp4"
          fsFinal := removeFile fs2 inputPath }
      else
        { trace := [Event.writeInput inputPath, Event.invoke cmd true,
                    Event.deleteInput inputPath]
          response := Response.errorJson (calledProcessErrorMsg cmd code)
          fsFinal := removeFile fs2 inputPath }
    | ProcBehavior.raises =>
        { trace := [Event.writeInput inputPath, Event.invoke cmd true,
                    Event.deleteInput inputPath]
          response := Response.errorJson e.raiseErrMsg
          fsFinal := removeFile fs2 inputPath }
  else
    if e.writeFailLeavesFile then
      { trace := [Event.deleteInput inputPath]
        response := Response.errorJson e.writeErrMsg
        fsFinal := removeFile [inputPath] inputPath }
    else
      { trace := []
        response := Response.errorJson e.writeErrMsg
        fsFinal := [] }

end Image2video

namespace ScriptsFastapi

/-- Line 55 of src/scripts/fastapi_server.py: the input path. -/
def input_image_path (e : Env) : String :=
  pyJoin TEMP_DIR (e.uuid ++ "_" ++ e.filename)

/-- Line 56: the output path this variant chooses itself, a fresh identifier
with the fixed `.mp4` extension under the working directory. -/
def output_video_path (e : Env) : String :=
  pyJoin TEMP_DIR (e.uuid2 ++ ".mp4")

/-- Line 68: the ffmpeg command line with `duration` and `fps` substituted
in as literal values. -/
def ffmpeg_cmd (inputPath : String) (duration fps : Int) (outputPath : String) :
    String :=
  "ffmpeg -loop 1 -i " ++ inputPath ++ " -c:v libx264 -t " ++ toString duration
    ++ " -pix_fmt yuv420p -vf fps=" ++ toString fps ++ " " ++ outputPath

/-- The request handler of src/scripts/fastapi_server.py, embedded step by
step: choose input and output paths (line 55 and 56, before anything else in
the try block), write the payload, run the ffmpeg command through the shell
with `check=True`, return a `FileResponse` on success; catch any exception
into an error dict; in the `finally` block delete the input file if it
exists. -/
def generate_video (e : Env) : Run :=
  let inputPath := input_image_path e
  let outPath := output_video_path e
  if e.writeOk then
    let cmd := ffmpeg_cmd inputPath e.duration e.fps outPath
    let fs1 : List String := [inputPath]
    let fs2 := if e.outputProduced then addFile fs1 outPath else fs1
    match e.proc with
    | ProcBehavior.exits code =>
      if code = 0 then
        { trace := [Event.chooseOutput outPath, Event.writeInput inputPath,
                    Event.invoke cmd true, Event.deleteInput inputPath]
          response := Response.fileResponse outPath "video/mp4"
              "generated_video.mp4"
          fsFinal := removeFile fs2 inputPath }
      else
        { trace := [Event.chooseOutput outPath, Event.writeInput inputPath,
                    Event.invoke cmd true, Event.deleteInput inputPath]
          response := Response.errorJson (calledProcessErrorMsg cmd code)
          fsFinal := removeFile fs2 inputPath }
    | ProcBehavior.raises =>
        { trace := [Event.chooseOutput outPath, Event.writeInput inputPath,
                    Event.invoke cmd true, Event.deleteInput inputPath]
          response := Response.errorJson e.raiseErrMsg
          fsFinal := removeFile fs2 inputPath }
  else
    if e.writeFailLeavesFile then
      { trace := [Event.chooseOutput outPath, Event.deleteInput inputPath]
        response := Response.errorJson e.writeErrMsg
        fsFinal := removeFile [inputPath] inputPath }
    else
      { trace := [Event.chooseOutput outPath]
        response := Response.errorJson e.writeErrMsg
        fsFinal := [] }

end ScriptsFastapi

/-- A concrete baseline environment: both uuid draws, the upload
`face.jpg`, default duration and fps, a successful write, a zero-exit
process that produced its output file. -/
def envA : Env :=
  { uuid := "u1", uuid2 := "u2", filename := "face.jpg", duration := 5,
    fps := 30, writeOk := true, writeFailLeavesFile := false,
    writeErrMsg := "disk full", raiseErrMsg := "shell spawn failed",
    proc := ProcBehavior.exits 0, outputProduced := true }

/-- The environment where the external process exits zero but produced no
output file. -/
def envC2 : Env := { envA with outputProduced := false }

/-- The environment where the external process exits with status 1. -/
def envB : Env := { envA with proc := ProcBehavior.exits 1 }

/-- The environment of the spec scenario: upload `cat.png`, duration 3,
fps 24. -/
def envCat : Env := { envA with filename := "cat.png", duration := 3, fps := 24 }

/-- The environment where writing the uploaded payload fails. -/
def envW : Env := { envA with writeOk := false }

/-- Removing a path removes it: it is gone from the result. -/
theorem not_mem_removeFile (fs : List String) (p : String) : p ∉ removeFile fs p := by
  simp [removeFile]

/-- Removing one path keeps every other path that was present. -/
theorem mem_removeFile_of_mem_ne {fs : List String} {q p : String}
    (hq : q ∈ fs) (h : q ≠ p) : q ∈ removeFile fs p := by
  simp [removeFile, hq, h]

/-- Adding a path makes it present. -/
theorem mem_addFile (fs : List String) (p : String) : p ∈ addFile fs p := by
  by_cases h : p ∈ fs <;> simp [addFile, h]

/-- Claim C1: for every request to the image-to-video endpoint (either
variant), once the uploaded payload has been written to the input path, the
input file exists until the external process invocation completes and is
deleted exactly once before the handler returns, on every exit path:
success, external-process failure, and any exception thrown during process
invocation. Formalised: under a successful write and any process behaviour,
each variant's trace contains an invocation, contains exactly one deletion,
no deletion before the invocation, the deletion is the last event before
the handler returns, and the input path is absent from the final file
system. -/
theorem input_file_lifecycle (e : Env) (h : e.writeOk = true) :
    (deleteCountL (Image2video.generate_video e).trace = 1
      ∧ invokeHappenedL (Image2video.generate_video e).trace = true
      ∧ noDeleteBeforeInvokeL (Image2video.generate_video e).trace = true
      ∧ deleteIsLastL (Image2video.generate_video e).trace = true
      ∧ Image2video.input_image_path e ∉ (Image2video.generate_video e).fsFinal)
  ∧ (deleteCountL (ScriptsFastapi.generate_video e).trace = 1
      ∧ invokeHappenedL (ScriptsFastapi.generate_video e).trace = true
      ∧ noDeleteBeforeInvokeL (ScriptsFastapi.generate_video e).trace = true
      ∧ deleteIsLastL (ScriptsFastapi.generate_video e).trace = true
      ∧ ScriptsFastapi.input_image_path e ∉ (ScriptsFastapi.generate_video e).fsFinal) := by
  cases hp : e.proc with
  | exits code =>
      by_cases hc : code = 0 <;>
        simp [Image2video.generate_video, ScriptsFastapi.generate_video, h, hp, hc,
          deleteCountL, invokeHappenedL, noDeleteBeforeInvokeL, deleteIsLastL,
          removeFile]
  | raises =>
      simp [Image2video.generate_video, ScriptsFastapi.generate_video, h, hp,
        deleteCountL, invokeHappenedL, noDeleteBeforeInvokeL, deleteIsLastL,
        removeFile]

/-- Witness for C1 at the concrete environment `envA`. -/
theorem input_file_lifecycle_witness :
    (deleteCountL (Image2video.generate_video envA).trace = 1
      ∧ invokeHappenedL (Image2video.generate_video envA).trace = true
      ∧ noDeleteBeforeInvokeL (Image2video.generate_video envA).trace = true
      ∧ deleteIsLastL (Image2video.generate_video envA).trace = true
      ∧ Image2video.input_image_path envA ∉ (Image2video.generate_video envA).fsFinal)
  ∧ (deleteCountL (ScriptsFastapi.generate_video envA).trace = 1
      ∧ invokeHappenedL (ScriptsFastapi.generate_video envA).trace = true
      ∧ noDeleteBeforeInvokeL (ScriptsFastapi.generate_video envA).trace = true
      ∧ deleteIsLastL (ScriptsFastapi.generate_video envA).trace = true
      ∧ ScriptsFastapi.input_image_path envA ∉ (ScriptsFastapi.generate_video envA).fsFinal) :=
  input_file_lifecycle envA rfl

/-- Claim C2, counterexample: in the environment `envC2` the external
process exits with status zero but leaves no output file, and the handler
of src/image2video_server.py still returns the success-shaped
`FileResponse` for the (absent) conventional output path — it neither
confirms the output file's existence before responding nor signals a
distinct failure, contradicting the claim. -/
theorem missing_output_not_checked :
    (Image2video.generate_video envC2).response
        = Response.fileResponse (Image2video.output_video_path envC2)
            "video/mp4" "generated_video.mp4"
  ∧ Image2video.output_video_path envC2 ∉ (Image2video.generate_video envC2).fsFinal := by
  constructor
  · rfl
  · decide

/-- Claim C2, amended: neither handler checks for the output file's
existence; whenever the external process exits zero, the handler returns
the `FileResponse` for the expected output path whether or not that file
was produced, so a missing output is not converted into the handler's
distinct error payload (it can only surface downstream, when the response
is streamed). -/
theorem zero_exit_responds_file_unconditionally (e : Env) (h : e.writeOk = true)
    (h0 : e.proc = ProcBehavior.exits 0) :
    (Image2video.generate_video e).response
        = Response.fileResponse (Image2video.output_video_path e)
            "video/mp4" "generated_video.mp4"
  ∧ (ScriptsFastapi.generate_video e).response
        = Response.fileResponse (ScriptsFastapi.output_video_path e)
            "video/mp4" "generated_video.mp4" := by
  simp [Image2video.generate_video, ScriptsFastapi.generate_video, h, h0]

/-- Witness for the amended C2 at the concrete environment `envC2`. -/
theorem zero_exit_responds_file_unconditionally_witness :
    (Image2video.generate_video envC2).response
        = Response.fileResponse (Image2video.output_video_path envC2)
            "video/mp4" "generated_video.mp4"
  ∧ (ScriptsFastapi.generate_video envC2).response
        = Response.fileResponse (ScriptsFastapi.output_video_path envC2)
            "video/mp4" "generated_video.mp4" :=
  zero_exit_responds_file_unconditionally envC2 rfl rfl

/-- Claim C3: for every request where the external process exits non-zero,
both handlers take the failure path: the `CalledProcessError` is caught and
reported as the error payload carrying its message, the input file is still
deleted exactly once and is gone afterwards, and no `FileResponse` is
returned; conversely, a `FileResponse` is only reached when the write
succeeded and the process exited zero. -/
theorem nonzero_exit_error_path :
    (∀ (e : Env) (code : Nat), e.writeOk = true →
      e.proc = ProcBehavior.exits code → code ≠ 0 →
      (Image2video.generate_video e).response
          = Response.errorJson (calledProcessErrorMsg
              (Image2video.inference_cmd (Image2video.input_image_path e)) code)
        ∧ deleteCountL (Image2video.generate_video e).trace = 1
        ∧ Image2video.input_image_path e ∉ (Image2video.generate_video e).fsFinal
        ∧ (ScriptsFastapi.generate_video e).response
          = Response.errorJson (calledProcessErrorMsg
              (ScriptsFastapi.ffmpeg_cmd (ScriptsFastapi.input_image_path e)
                e.duration e.fps (ScriptsFastapi.output_video_path e)) code)
        ∧ deleteCountL (ScriptsFastapi.generate_video e).trace = 1
        ∧ ScriptsFastapi.input_image_path e ∉ (ScriptsFastapi.generate_video e).fsFinal)
  ∧ (∀ (e : Env) (p m f : String),
      ((Image2video.generate_video e).response = Response.fileResponse p m f →
        e.writeOk = true ∧ e.proc = ProcBehavior.exits 0)
      ∧ ((ScriptsFastapi.generate_video e).response = Response.fileResponse p m f →
        e.writeOk = true ∧ e.proc = ProcBehavior.exits 0)) := by
  constructor
  · intro e code h hp hc
    simp [Image2video.generate_video, ScriptsFastapi.generate_video, h, hp, hc,
      deleteCountL, removeFile]
  · intro e p m f
    constructor
    · intro hr
      cases hw : e.writeOk with
      | false =>
          cases hl : e.writeFailLeavesFile <;>
            simp [Image2video.generate_video, hw, hl] at hr
      | true =>
          cases hp : e.proc with
          | exits code =>
              by_cases hc : code = 0
              · exact ⟨rfl, by simp [hc]⟩
              · simp [Image2video.generate_video, hw, hp, hc] at hr
          | raises => simp [Image2video.generate_video, hw, hp] at hr
    · intro hr
      cases hw : e.writeOk with
      | false =>
          cases hl : e.writeFailLeavesFile <;>
            simp [ScriptsFastapi.generate_video, hw, hl] at hr
      | true =>
          cases hp : e.proc with
          | exits code =>
              by_cases hc : code = 0
              · exact ⟨rfl, by simp [hc]⟩
              · simp [ScriptsFastapi.generate_video, hw, hp, hc] at hr
          | raises => simp [ScriptsFastapi.generate_video, hw, hp] at hr

/-- Witness for C3 at the concrete environment `envB`, whose process exits
with status 1. -/
theorem nonzero_exit_error_path_witness :
    (Image2video.generate_video envB).response
        = Response.errorJson (calledProcessErrorMsg
            (Image2video.inference_cmd (Image2video.input_image_path envB)) 1)
      ∧ deleteCountL (Image2video.generate_video envB).trace = 1
      ∧ Image2video.input_image_path envB ∉ (Image2video.generate_video envB).fsFinal
      ∧ (ScriptsFastapi.generate_video envB).response
        = Response.errorJson (calledProcessErrorMsg
            (ScriptsFastapi.ffmpeg_cmd (ScriptsFastapi.input_image_path envB)
              envB.duration envB.fps (ScriptsFastapi.output_video_path envB)) 1)
      ∧ deleteCountL (ScriptsFastapi.generate_video envB).trace = 1
      ∧ ScriptsFastapi.input_image_path envB ∉ (ScriptsFastapi.generate_video envB).fsFinal :=
  nonzero_exit_error_path.1 envB 1 rfl rfl (by decide)

/-- Claim C4: every failure inside either request handler is caught at the
top level of the handler and converted into the JSON error body; the
handler never sets a non-2xx status (both response shapes carry FastAPI's
default 200), the invocation is attempted at most once (nothing is
retried), and the handler is a total function of its environment, so one
failed request cannot affect another. Formalised: every run has status 200;
every run is either the zero-exit success run or yields an
`Response.errorJson` body in both variants; and each trace contains at most
one invocation. -/
theorem failures_caught_as_error_json (e : Env) :
    (statusOf (Image2video.generate_video e).response = 200
      ∧ statusOf (ScriptsFastapi.generate_video e).response = 200)
  ∧ ((e.writeOk = true ∧ e.proc = ProcBehavior.exits 0)
      ∨ ((∃ m, (Image2video.generate_video e).response = Response.errorJson m)
          ∧ ∃ m, (ScriptsFastapi.generate_video e).response = Response.errorJson m))
  ∧ invokeCountL (Image2video.generate_video e).trace ≤ 1
  ∧ invokeCountL (ScriptsFastapi.generate_video e).trace ≤ 1 := by
  cases hw : e.writeOk with
  | false =>
      cases hl : e.writeFailLeavesFile <;>
        simp [Image2video.generate_video, ScriptsFastapi.generate_video, hw, hl,
          statusOf, invokeCountL]
  | true =>
      cases hp : e.proc with
      | exits code =>
          by_cases hc : code = 0 <;>
            simp [Image2video.generate_video, ScriptsFastapi.generate_video, hw, hp, hc,
              statusOf, invokeCountL]
      | raises =>
          simp [Image2video.generate_video, ScriptsFastapi.generate_video, hw, hp,
            statusOf, invokeCountL]

/-- Claim C5: in the shell-encoder variant, every request builds a single
command-line string with the input path, duration, and fps substituted in as
literal values, executes it through a shell (the invocation event records
`shell=True`), and the output path is a freshly generated identifier with
the fixed `.mp4` extension under the working directory, chosen and embedded
in the command line before the process is invoked. -/
theorem ffmpeg_command_and_output (e : Env) (h : e.writeOk = true) :
    Event.invoke (ScriptsFastapi.ffmpeg_cmd (ScriptsFastapi.input_image_path e)
        e.duration e.fps (ScriptsFastapi.output_video_path e)) true
      ∈ (ScriptsFastapi.generate_video e).trace
  ∧ ScriptsFastapi.ffmpeg_cmd (ScriptsFastapi.input_image_path e) e.duration e.fps
        (ScriptsFastapi.output_video_path e)
      = "ffmpeg -loop 1 -i " ++ ScriptsFastapi.input_image_path e
          ++ " -c:v libx264 -t " ++ toString e.duration
          ++ " -pix_fmt yuv420p -vf fps=" ++ toString e.fps ++ " "
          ++ ScriptsFastapi.output_video_path e
  ∧ ScriptsFastapi.output_video_path e = pyJoin TEMP_DIR (e.uuid2 ++ ".mp4")
  ∧ chosenBeforeInvokeL (ScriptsFastapi.generate_video e).trace = true := by
  refine ⟨?_, rfl, rfl, ?_⟩ <;>
  · cases hp : e.proc with
    | exits code =>
        by_cases hc : code = 0 <;>
          simp [ScriptsFastapi.generate_video, h, hp, hc, chosenBeforeInvokeL]
    | raises => simp [ScriptsFastapi.generate_video, h, hp, chosenBeforeInvokeL]

/-- Witness for C5 at the spec scenario `envCat` (upload `cat.png`,
duration 3, fps 24): the built command contains `-t 3` and `fps=24` as
substituted literal segments. -/
theorem ffmpeg_command_and_output_witness :
    (Event.invoke (ScriptsFastapi.ffmpeg_cmd (ScriptsFastapi.input_image_path envCat)
        envCat.duration envCat.fps (ScriptsFastapi.output_video_path envCat)) true
      ∈ (ScriptsFastapi.generate_video envCat).trace
  ∧ ScriptsFastapi.ffmpeg_cmd (ScriptsFastapi.input_image_path envCat)
        envCat.duration envCat.fps (ScriptsFastapi.output_video_path envCat)
      = "ffmpeg -loop 1 -i " ++ ScriptsFastapi.input_image_path envCat
          ++ " -c:v libx264 -t " ++ toString envCat.duration
          ++ " -pix_fmt yuv420p -vf fps=" ++ toString envCat.fps ++ " "
          ++ ScriptsFastapi.output_video_path envCat
  ∧ ScriptsFastapi.output_video_path envCat = pyJoin TEMP_DIR (envCat.uuid2 ++ ".mp4")
  ∧ chosenBeforeInvokeL (ScriptsFastapi.generate_video envCat).trace = true)
  ∧ ScriptsFastapi.ffmpeg_cmd (ScriptsFastapi.input_image_path envCat)
        envCat.duration envCat.fps (ScriptsFastapi.output_video_path envCat)
      = "ffmpeg -loop 1 -i temp_files/u1_cat.png -c:v libx264 " ++ "-t 3"
          ++ " -pix_fmt yuv420p -vf fps=24 temp_files/u2.mp4"
  ∧ ScriptsFastapi.ffmpeg_cmd (ScriptsFastapi.input_image_path envCat)
        envCat.duration envCat.fps (ScriptsFastapi.output_video_path envCat)
      = "ffmpeg -loop 1 -i temp_files/u1_cat.png -c:v libx264 -t 3 -pix_fmt yuv420p -vf "
          ++ "fps=24" ++ " temp_files/u2.mp4" :=
  ⟨ffmpeg_command_and_output envCat rfl, by decide, by decide⟩

/-- Claim C6: in the inference-script variant, the output path is derived
deterministically from the stored input filename's stem by the fixed
convention `animations/<stem>--video.mp4`; no output path is chosen or
derived before the process is invoked, and on success the derivation event
follows the invocation and the response references exactly the conventional
path. -/
theorem i2v_output_derived_by_convention (e : Env) (h : e.writeOk = true) :
    Image2video.output_video_path e
        = "animations/" ++ splitHeadDot (pyBasename (e.uuid ++ "_" ++ e.filename))
            ++ "--video.mp4"
  ∧ noOutputChoiceBeforeInvokeL (Image2video.generate_video e).trace = true
  ∧ (e.proc = ProcBehavior.exits 0 →
      Event.deriveOutput (Image2video.output_video_path e)
          ∈ (Image2video.generate_video e).trace
      ∧ (Image2video.generate_video e).response
          = Response.fileResponse (Image2video.output_video_path e)
              "video/mp4" "generated_video.mp4") := by
  refine ⟨rfl, ?_, ?_⟩
  · cases hp : e.proc with
    | exits code =>
        by_cases hc : code = 0 <;>
          simp [Image2video.generate_video, h, hp, hc, noOutputChoiceBeforeInvokeL]
    | raises =>
        simp [Image2video.generate_video, h, hp, noOutputChoiceBeforeInvokeL]
  · intro h0
    simp [Image2video.generate_video, h, h0]

/-- Witness for C6 at the spec scenario `envA` (upload `face.jpg`): the
output is resolved at `animations/u1_face--video.mp4` for the stored input
named by identifier `u1`. -/
theorem i2v_output_derived_by_convention_witness :
    (Image2video.output_video_path envA
        = "animations/" ++ splitHeadDot (pyBasename (envA.uuid ++ "_" ++ envA.filename))
            ++ "--video.mp4"
  ∧ noOutputChoiceBeforeInvokeL (Image2video.generate_video envA).trace = true
  ∧ (envA.proc = ProcBehavior.exits 0 →
      Event.deriveOutput (Image2video.output_video_path envA)
          ∈ (Image2video.generate_video envA).trace
      ∧ (Image2video.generate_video envA).response
          = Response.fileResponse (Image2video.output_video_path envA)
              "video/mp4" "generated_video.mp4"))
  ∧ Image2video.output_video_path envA = "animations/u1_face--video.mp4" :=
  ⟨i2v_output_derived_by_convention envA rfl, by decide⟩

/-- Claim C7: for every request in which the uploaded payload cannot be
written to the input path (which also covers an unwritable working
directory), both handlers fail fast: no external process invocation appears
in the trace and the failure propagates as the generic JSON error payload.
-/
theorem write_failure_fails_fast (e : Env) (h : e.writeOk = false) :
    invokeHappenedL (Image2video.generate_video e).trace = false
  ∧ (Image2video.generate_video e).response = Response.errorJson e.writeErrMsg
  ∧ invokeHappenedL (ScriptsFastapi.generate_video e).trace = false
  ∧ (ScriptsFastapi.generate_video e).response = Response.errorJson e.writeErrMsg := by
  cases hl : e.writeFailLeavesFile <;>
    simp [Image2video.generate_video, ScriptsFastapi.generate_video, h, hl,
      invokeHappenedL]

/-- Witness for C7 at the concrete environment `envW`, whose payload write
fails. -/
theorem write_failure_fails_fast_witness :
    invokeHappenedL (Image2video.generate_video envW).trace = false
  ∧ (Image2video.generate_video envW).response = Response.errorJson envW.writeErrMsg
  ∧ invokeHappenedL (ScriptsFastapi.generate_video envW).trace = false
  ∧ (ScriptsFastapi.generate_video envW).response = Response.errorJson envW.writeErrMsg :=
  write_failure_fails_fast envW rfl

/-- Claim C8: for every successful request in both variants, the handler
returns the output file as a `FileResponse` with status 200, media type
`video/mp4`, and the fixed suggested download filename
`generated_video.mp4`, regardless of the server-side generated name of the
output file (the environment, and with it the generated name, is
universally quantified). -/
theorem success_response_streams_video (e : Env) (h : e.writeOk = true)
    (h0 : e.proc = ProcBehavior.exits 0) :
    (Image2video.generate_video e).response
        = Response.fileResponse (Image2video.output_video_path e) "video/mp4"
            "generated_video.mp4"
  ∧ statusOf (Image2video.generate_video e).response = 200
  ∧ (ScriptsFastapi.generate_video e).response
        = Response.fileResponse (ScriptsFastapi.output_video_path e) "video/mp4"
            "generated_video.mp4"
  ∧ statusOf (ScriptsFastapi.generate_video e).response = 200 := by
  simp [Image2video.generate_video, ScriptsFastapi.generate_video, h, h0, statusOf]

/-- Witness for C8 at the concrete environment `envA`. -/
theorem success_response_streams_video_witness :
    (Image2video.generate_video envA).response
        = Response.fileResponse (Image2video.output_video_path envA) "video/mp4"
            "generated_video.mp4"
  ∧ statusOf (Image2video.generate_video envA).response = 200
  ∧ (ScriptsFastapi.generate_video envA).response
        = Response.fileResponse (ScriptsFastapi.output_video_path envA) "video/mp4"
            "generated_video.mp4"
  ∧ statusOf (ScriptsFastapi.generate_video envA).response = 200 :=
  success_response_streams_video envA rfl rfl

/-- Claim C9: on every exit path of either handler, the only path ever
deleted is the input path, so the output file is never deleted by the
handler; moreover whenever the external process produced the output file
(and its path is not aliased to the input path), the output file is still
on disk after the handler returns. -/
theorem output_never_deleted (e : Env) :
    deletesOnlyL (Image2video.input_image_path e)
        (Image2video.generate_video e).trace = true
  ∧ deletesOnlyL (ScriptsFastapi.input_image_path e)
        (ScriptsFastapi.generate_video e).trace = true
  ∧ (e.writeOk = true → e.outputProduced = true →
      (Image2video.output_video_path e ≠ Image2video.input_image_path e →
        Image2video.output_video_path e ∈ (Image2video.generate_video e).fsFinal)
      ∧ (ScriptsFastapi.output_video_path e ≠ ScriptsFastapi.input_image_path e →
        ScriptsFastapi.output_video_path e ∈ (ScriptsFastapi.generate_video e).fsFinal)) := by
  have key : ∀ (inP outP : String), outP ≠ inP →
      outP ∈ removeFile (addFile [inP] outP) inP := fun inP outP hne =>
    mem_removeFile_of_mem_ne (mem_addFile _ _) hne
  refine ⟨?_, ?_, ?_⟩
  · cases hw : e.writeOk with
    | false =>
        cases hl : e.writeFailLeavesFile <;>
          simp [Image2video.generate_video, hw, hl, deletesOnlyL]
    | true =>
        cases hp : e.proc with
        | exits code =>
            by_cases hc : code = 0 <;>
              simp [Image2video.generate_video, hw, hp, hc, deletesOnlyL]
        | raises => simp [Image2video.generate_video, hw, hp, deletesOnlyL]
  · cases hw : e.writeOk with
    | false =>
        cases hl : e.writeFailLeavesFile <;>
          simp [ScriptsFastapi.generate_video, hw, hl, deletesOnlyL]
    | true =>
        cases hp : e.proc with
        | exits code =>
            by_cases hc : code = 0 <;>
              simp [ScriptsFastapi.generate_video, hw, hp, hc, deletesOnlyL]
        | raises => simp [ScriptsFastapi.generate_video, hw, hp, deletesOnlyL]
  · intro hw ho
    constructor
    · intro hne
      cases hp : e.proc with
      | exits code =>
          by_cases hc : code = 0 <;>
            simpa [Image2video.generate_video, hw, hp, hc, ho] using key _ _ hne
      | raises =>
          simpa [Image2video.generate_video, hw, hp, ho] using key _ _ hne
    · intro hne
      cases hp : e.proc with
      | exits code =>
          by_cases hc : code = 0 <;>
            simpa [ScriptsFastapi.generate_video, hw, hp, hc, ho] using key _ _ hne
      | raises =>
          simpa [ScriptsFastapi.generate_video, hw, hp, ho] using key _ _ hne

/-- Witness for C9 at the concrete environment `envA`: both variants leave
the produced output file on disk. -/
theorem output_never_deleted_witness :
    deletesOnlyL (Image2video.input_image_path envA)
        (Image2video.generate_video envA).trace = true
  ∧ Image2video.output_video_path envA ∈ (Image2video.generate_video envA).fsFinal
  ∧ ScriptsFastapi.output_video_path envA ∈ (ScriptsFastapi.generate_video envA).fsFinal :=
  ⟨(output_never_deleted envA).1,
   ((output_never_deleted envA).2.2 rfl rfl).1 (by decide),
   ((output_never_deleted envA).2.2 rfl rfl).2 (by decide)⟩

/-- Claim C10: in the inference-script variant the duration and fps
parameters have no effect whatsoever on the handler's behaviour: two
environments identical except for their duration and fps values produce
identical runs — the same event trace (hence the same subprocess command
line and the same derived output path), the same response, and the same
final file system. -/
theorem duration_fps_noninterference (e : Env) (d f : Int) :
    Image2video.generate_video { e with duration := d, fps := f }
      = Image2video.generate_video e := by
  cases e
  rfl

end LivePortrait
